import Mathlib

/-!
# Verification of the Destiny-Application-2 classification / enrichment core

Shallow embedding of `src/buildCrafting.js` (and the `filterUpToCurrentSeason`
variant of the same module) together with the parts of `src/manifest.js` that
the definition cache uses.  JavaScript records are modelled as Lean structures
whose optional fields are `Option`s; JavaScript truthiness on those fields is
made explicit (`none`, `some 0`, `some ""` and `some false` are falsy).
Stateful module-level caches are modelled by explicit state passing.
-/

namespace Destiny

/-- JS truthiness of an optional string (`undefined`/`''` are falsy). -/
def jsStrTruthy : Option String → Bool
  | some s => s != ""
  | none => false

/-- JS truthiness of an optional number (`undefined`/`0` are falsy). -/
def jsNatTruthy : Option Nat → Bool
  | some n => n != 0
  | none => false

/-- JS `x || d` on an optional number (`undefined` and `0` fall back to `d`). -/
def jsOrNum : Option Int → Int → Int
  | some v, d => if v = 0 then d else v
  | none, d => d

/-- JS `x || d` on an optional string (`undefined` and `''` fall back to `d`). -/
def jsOrStr : Option String → String → String
  | some s, d => if s = "" then d else s
  | none, d => d

/-- Does the character list `s` start with `pat`? (JS `String.startsWith`.) -/
def charsStart : List Char → List Char → Bool
  | [], _ => true
  | _ :: _, [] => false
  | p :: ps, c :: cs => p == c && charsStart ps cs

/-- Does the character list `s` contain `pat` as a contiguous run?
(JS `String.includes`.) -/
def charsContain (pat : List Char) : List Char → Bool
  | [] => charsStart pat []
  | c :: cs => charsStart pat (c :: cs) || charsContain pat cs

/-- JS `s.includes(pat)`. -/
def strContains (s pat : String) : Bool := charsContain pat.data s.data

/-- JS `s.startsWith(pat)`. -/
def strStarts (s pat : String) : Bool := charsStart pat.data s.data

/-- JS `s.toLowerCase()` (character-wise lowering). -/
def lowerStr (s : String) : String := String.mk (s.data.map Char.toLower)

/-- `displayProperties` sub-record of a definition record. -/
structure DisplayProps where
  name : Option String
  description : Option String
  icon : Option String
  deriving Repr, DecidableEq

/-- `plug` sub-record of an inventory-item record. -/
structure PlugBlock where
  plugCategoryIdentifier : Option String
  deriving Repr, DecidableEq

/-- One entry of the raw per-item stat map (`item.stats.stats[hash]`). -/
structure StatData where
  value : Option Int
  minimum : Option Int
  maximum : Option Int
  displayMaximum : Option Int
  deriving Repr, DecidableEq

/-- `stats` sub-record of an inventory-item record; the inner `stats` field is
the hash-keyed map, modelled as an association list keyed by the JS object
key (a numeric string). -/
structure StatsBlock where
  stats : Option (List (String × StatData))
  deriving Repr, DecidableEq

/-- A perk reference inside `item.perks`. -/
structure PerkRef where
  perkHash : Nat
  deriving Repr, DecidableEq

/-- One entry of `item.sockets.socketEntries`. -/
structure SocketEntry where
  socketTypeHash : Option Nat
  singleInitialItemHash : Option Nat
  reusablePlugSetHash : Option Nat
  deriving Repr, DecidableEq

/-- `sockets` sub-record of an inventory-item record. -/
structure SocketsBlock where
  socketEntries : Option (List SocketEntry)
  deriving Repr, DecidableEq

/-- An inventory-item record (`DestinyInventoryItemDefinition` row), with the
fields the build-crafting module reads; every field a record may lack is an
`Option`. -/
structure Item where
  displayProperties : Option DisplayProps
  redacted : Option Bool
  equippable : Option Bool
  itemCategoryHashes : Option (List Nat)
  seasonHash : Option Nat
  plug : Option PlugBlock
  itemTypeDisplayName : Option String
  stats : Option StatsBlock
  perks : Option (List PerkRef)
  sockets : Option SocketsBlock
  defaultDamageType : Option Nat
  deriving Repr, DecidableEq

/-- An item with all optional fields absent; concrete examples override the
fields they need. -/
def emptyItem : Item :=
  { displayProperties := none, redacted := none, equippable := none,
    itemCategoryHashes := none, seasonHash := none, plug := none,
    itemTypeDisplayName := none, stats := none, perks := none,
    sockets := none, defaultDamageType := none }

/-- JS `item.displayProperties?.name` truthiness (non-empty name present). -/
def hasDisplayName (i : Item) : Bool :=
  match i.displayProperties with
  | some dp => jsStrTruthy dp.name
  | none => false

/-- `filterUsableItems(items, allowNonEquippable)` from `buildCrafting.js`:
drops redacted items, items with `equippable === false` (unless
`allowNonEquippable`), and items without a display name. -/
def filterUsableItems (items : List Item) (allowNonEquippable : Bool := false) :
    List Item :=
  items.filter fun item =>
    if item.redacted == some true then false
    else if !allowNonEquippable && item.equippable == some false then false
    else if !hasDisplayName item then false
    else true

/-- `filterByCategory(items, categoryHash)`: keeps items whose
`itemCategoryHashes` list exists and contains the hash. -/
def filterByCategory (items : List Item) (categoryHash : Nat) : List Item :=
  items.filter fun item =>
    match item.itemCategoryHashes with
    | some hs => hs.contains categoryHash
    | none => false

/-- `filterByCurrentSeason(items, seasonHash)`: exact-season mode; keeps items
whose `seasonHash` is truthy and strictly equal to the given hash. -/
def filterByCurrentSeason (items : List Item) (seasonHash : Nat) : List Item :=
  items.filter fun item =>
    jsNatTruthy item.seasonHash && item.seasonHash == some seasonHash

/-- `filterUpToCurrentSeason(items, currentSeasonNumber, seasonHashToNumberMap)`
(the up-to-current variant of the module): drops redacted items; keeps items
with a falsy `seasonHash`; keeps items whose hash is not in the map; otherwise
keeps items whose mapped season number is `<=` the current one. -/
def filterUpToCurrentSeason (items : List Item) (currentSeasonNumber : Int)
    (seasonHashToNumberMap : List (Nat × Int)) : List Item :=
  items.filter fun item =>
    if item.redacted == some true then false
    else if !jsNatTruthy item.seasonHash then true
    else
      match item.seasonHash with
      | none => true
      | some h =>
        match seasonHashToNumberMap.lookup h with
        | none => true
        | some n => n ≤ currentSeasonNumber

/-- The usability condition exactly as the spec words it: not flagged
redacted, a non-empty display name, and not marked `equippable === false`
unless `allowNonEquippable` is set. -/
def specUsable (allowNonEquippable : Bool) (i : Item) : Bool :=
  !(i.redacted == some true) && hasDisplayName i &&
    (allowNonEquippable || !(i.equippable == some false))

/-- The exact-mode season condition as the spec words it: season identifier
present (truthy) and strictly equal to the current season's identifier. -/
def specExactSeason (seasonHash : Nat) (i : Item) : Bool :=
  jsNatTruthy i.seasonHash && i.seasonHash == some seasonHash

/-- The up-to-current season condition as the spec words it — no season
identifier, or unmapped identifier, or mapped ordinal `<=` current — amended
with the extra non-redacted requirement the code imposes. -/
def specUpToSeason (cur : Int) (m : List (Nat × Int)) (i : Item) : Bool :=
  !(i.redacted == some true) &&
    (match i.seasonHash with
     | none => true
     | some h =>
       h == 0 ||
         (match m.lookup h with
          | none => true
          | some n => decide (n ≤ cur)))

/-- A `DestinySeasonDefinition` row, with the fields the resolver reads;
timestamps are instants on an integer timeline. -/
structure SeasonRecord where
  hash : Nat
  seasonNumber : Option Int
  startDate : Option Int
  endDate : Option Int
  displayProperties : Option DisplayProps
  deriving Repr, DecidableEq

/-- `s.seasonNumber` read for sorting (present after the positivity filter). -/
def seasonNum (s : SeasonRecord) : Int := s.seasonNumber.getD 0

/-- JS `!s.seasonNumber || s.seasonNumber <= 0` negated: the record has a
truthy, positive season number. -/
def seasonNumPos (s : SeasonRecord) : Bool :=
  match s.seasonNumber with
  | some n => decide (0 < n)
  | none => false

/-- The `startDate` check of `getCurrentSeasonHash`: absent start dates pass,
otherwise `startDate <= now`. -/
def startedPred (now : Int) (s : SeasonRecord) : Bool :=
  seasonNumPos s &&
    (match s.startDate with
     | some t => decide (t ≤ now)
     | none => true)

/-- The `endDate` check of `getCurrentSeasonHash`: absent end dates pass,
otherwise `endDate > now`. -/
def notEndedPred (now : Int) (s : SeasonRecord) : Bool :=
  match s.endDate with
  | some t => decide (now < t)
  | none => true

/-- The full active-season check: started, and not yet ended. -/
def activePred (now : Int) (s : SeasonRecord) : Bool :=
  startedPred now s && notEndedPred now s

/-- Running maximum: the current champion `a` is replaced only by a strictly
larger season number, so the earliest maximal element wins. -/
def maxFrom (a : SeasonRecord) : List SeasonRecord → SeasonRecord
  | [] => a
  | b :: rest =>
    if seasonNum a < seasonNum b then maxFrom b rest else maxFrom a rest

/-- `sort((a, b) => b.seasonNumber - a.seasonNumber)` followed by `[0]`:
a stable descending sort's head is the first element carrying the maximal
season number, `undefined` (`none`) on the empty list. -/
def firstMaxSeason : List SeasonRecord → Option SeasonRecord
  | [] => none
  | s :: rest => some (maxFrom s rest)

/-- `getCurrentSeasonHash` of `src/buildCrafting.js`, as a pure function of
the season table (`Object.values` order) and the current instant; returns the
chosen season record, or the thrown error message. -/
def getCurrentSeason (seasons : List SeasonRecord) (now : Int) :
    Except String SeasonRecord :=
  let activeSeasons := seasons.filter (activePred now)
  let chosen :=
    if activeSeasons.isEmpty then
      firstMaxSeason (seasons.filter (startedPred now))
    else
      firstMaxSeason activeSeasons
  match chosen with
  | some s => .ok s
  | none => .error "Could not determine current season from manifest"

/-- The hash of the resolved current season. -/
def getCurrentSeasonHash (seasons : List SeasonRecord) (now : Int) :
    Except String Nat :=
  (getCurrentSeason seasons now).map (fun s => s.hash)

/-! ## Definition cache (`loadManifest` / `loadDefinitions` / `clearCache`)

The module-level mutable variables of `buildCrafting.js` become an explicit
`CacheState`; the remote gateway (`manifest.js`) becomes an environment of
deterministic responses; each operation returns its result, the new state and
the number of manifest-component downloads it performed. -/

/-- The manifest object: `jsonWorldComponentContentPaths` maps a locale to a
table-name → path map. -/
structure Manifest where
  jsonWorldComponentContentPaths : Option (List (String × List (String × String)))
  deriving Repr, DecidableEq

/-- The gateway's deterministic responses: the manifest returned by
`client.request`, and the table served for each component path. -/
structure Gateway where
  manifestData : Manifest
  fetchTable : String → List Item

/-- The module-level caches of `buildCrafting.js`. -/
structure CacheState where
  manifestCache : Option Manifest
  definitionsCache : List (String × List Item)
  currentSeasonHash : Option Nat
  currentSeasonName : Option String
  currentSeasonNumber : Option Int

/-- The initial (cold) cache. -/
def initialCache : CacheState :=
  { manifestCache := none, definitionsCache := [],
    currentSeasonHash := none, currentSeasonName := none,
    currentSeasonNumber := none }

/-- `clearCache()`: resets every module-level cache variable. -/
def clearCache (_s : CacheState) : CacheState := initialCache

/-- `loadManifest(client)`: returns the cached manifest, fetching and caching
it on a cold cache. -/
def loadManifest (env : Gateway) (s : CacheState) : Manifest × CacheState :=
  match s.manifestCache with
  | some m => (m, s)
  | none => (env.manifestData, { s with manifestCache := some env.manifestData })

/-- `getDefinitionPath(manifest, tableName)` from `manifest.js` (locale fixed
to `'en'`): throws when the locale map or the table's path is missing or the
path is falsy. -/
def getDefinitionPath (m : Manifest) (tableName : String) :
    Except String String :=
  match m.jsonWorldComponentContentPaths with
  | none => .error "Locale not found in manifest"
  | some byLocale =>
    match byLocale.lookup "en" with
    | none => .error "Locale not found in manifest"
    | some tables =>
      match tables.lookup tableName with
      | none => .error "Definition table not found in manifest"
      | some p =>
        if p = "" then .error "Definition table not found in manifest"
        else .ok p

/-- `loadDefinitions(client, tableName)`: serves the cached table when
present; otherwise resolves the path through the (possibly freshly cached)
manifest, downloads the component once, and caches it.  The `Nat` counts the
`downloadManifestComponent` calls performed by this invocation. -/
def loadDefinitions (env : Gateway) (tableName : String) (s : CacheState) :
    Except String (List Item) × CacheState × Nat :=
  match s.definitionsCache.lookup tableName with
  | some t => (.ok t, s, 0)
  | none =>
    let (m, s1) := loadManifest env s
    match getDefinitionPath m tableName with
    | .error e => (.error e, s1, 0)
    | .ok path =>
      let t := env.fetchTable path
      (.ok t, { s1 with definitionsCache := (tableName, t) :: s1.definitionsCache }, 1)

/-! ## Enrichment engine -/

/-- A `DestinyStatDefinition` row (fields read by enrichment). -/
structure StatDef where
  displayProperties : Option DisplayProps
  deriving Repr, DecidableEq

/-- A `DestinySandboxPerkDefinition` row (fields read by enrichment). -/
structure PerkDef where
  displayProperties : Option DisplayProps
  isDisplayable : Option Bool
  deriving Repr, DecidableEq

/-- A `DestinyDamageTypeDefinition` row (fields read by enrichment). -/
structure DamageTypeDef where
  displayProperties : Option DisplayProps
  enumValue : Option Int
  deriving Repr, DecidableEq

/-- One resolved entry of `enrichedStats`. -/
structure EnrichedStat where
  hash : String
  name : String
  description : String
  value : Int
  minimum : Int
  maximum : Int
  displayMaximum : Option Int
  deriving Repr, DecidableEq

/-- One resolved entry of `enrichedPerks`. -/
structure EnrichedPerk where
  hash : Nat
  name : String
  description : String
  icon : String
  isDisplayable : Bool
  deriving Repr, DecidableEq

/-- The resolved `enrichedDamageType` record. -/
structure EnrichedDamage where
  hash : Nat
  name : String
  description : String
  enumValue : Option Int
  deriving Repr, DecidableEq

/-- The body of the `enrichedStats` loop: resolve one raw stat entry against
the stat table, synthesising `Unknown_<id>` when the table has no row. -/
def enrichStat (statDefs : List (String × StatDef)) (statHash : String)
    (statData : StatData) : EnrichedStat :=
  let dp := (statDefs.lookup statHash).bind (fun sd => sd.displayProperties)
  { hash := statHash,
    name := jsOrStr (dp.bind (fun d => d.name)) ("Unknown_" ++ statHash),
    description := jsOrStr (dp.bind (fun d => d.description)) "",
    value := jsOrNum statData.value 0,
    minimum := jsOrNum statData.minimum 0,
    maximum := jsOrNum statData.maximum 100,
    displayMaximum := statData.displayMaximum }

/-- The result of `enrichItemWithStats`: the spread of the original item,
plus the `enrichedStats` key when it was added (`none` models the branch that
returns the item untouched, without the key). -/
structure StatsEnriched where
  item : Item
  enrichedStats : Option (List (String × EnrichedStat))
  deriving Repr, DecidableEq

/-- `enrichItemWithStats(item, statDefs)`: returns the item unchanged when the
stats block or its inner map is absent, else spreads the item with a map of
resolved stats. -/
def enrichItemWithStats (item : Item) (statDefs : List (String × StatDef)) :
    StatsEnriched :=
  match item.stats with
  | none => { item := item, enrichedStats := none }
  | some sb =>
    match sb.stats with
    | none => { item := item, enrichedStats := none }
    | some entries =>
      { item := item,
        enrichedStats :=
          some (entries.map (fun e => (e.1, enrichStat statDefs e.1 e.2))) }

/-- The result of `enrichItemWithPerks` applied after `enrichItemWithStats`:
the original item and any `enrichedStats` pass through; `enrichedPerks`,
`enrichedSockets` and `enrichedDamageType` (nullable) are added. -/
structure EnrichedItem where
  item : Item
  enrichedStats : Option (List (String × EnrichedStat))
  enrichedPerks : List EnrichedPerk
  enrichedSockets : List SocketEntry
  enrichedDamageType : Option EnrichedDamage
  deriving Repr, DecidableEq

/-- Resolve one perk reference; references missing from the table are skipped
(`if (perkDef)`). -/
def enrichPerkRef (perkDefs : List (Nat × PerkDef)) (p : PerkRef) :
    Option EnrichedPerk :=
  match perkDefs.lookup p.perkHash with
  | none => none
  | some perkDef =>
    let dp := perkDef.displayProperties
    some
      { hash := p.perkHash,
        name := jsOrStr (dp.bind (fun d => d.name)) ("Unknown_" ++ toString p.perkHash),
        description := jsOrStr (dp.bind (fun d => d.description)) "",
        icon :=
          if jsStrTruthy (dp.bind (fun d => d.icon)) then
            "https://www.bungie.net" ++ ((dp.bind (fun d => d.icon)).getD "")
          else "",
        isDisplayable := perkDef.isDisplayable == some true }

/-- `enrichItemWithPerks(item, perkDefs, damageTypeDefs)` as applied in the
pipeline (to the output of `enrichItemWithStats`). -/
def enrichItemWithPerks (e : StatsEnriched) (perkDefs : List (Nat × PerkDef))
    (damageTypeDefs : List (Nat × DamageTypeDef)) : EnrichedItem :=
  let item := e.item
  let enrichedPerks := (item.perks.getD []).filterMap (enrichPerkRef perkDefs)
  let enrichedSockets :=
    match item.sockets with
    | none => []
    | some sb =>
      (sb.socketEntries.getD []).filter fun sk =>
        jsNatTruthy sk.singleInitialItemHash
  let enrichedDamageType :=
    match item.defaultDamageType with
    | none => none
    | some dt =>
      if dt == 0 then none
      else
        match damageTypeDefs.lookup dt with
        | none => none
        | some dtDef =>
          let dp := dtDef.displayProperties
          some
            { hash := dt,
              name := jsOrStr (dp.bind (fun d => d.name)) ("Unknown_" ++ toString dt),
              description := jsOrStr (dp.bind (fun d => d.description)) "",
              enumValue := dtDef.enumValue }
  { item := item, enrichedStats := e.enrichedStats,
    enrichedPerks := enrichedPerks, enrichedSockets := enrichedSockets,
    enrichedDamageType := enrichedDamageType }

/-- `enrichItems(items, client)`: stat enrichment followed by perk/damage
enrichment, over the three definition tables. -/
def enrichItems (items : List Item) (statDefs : List (String × StatDef))
    (perkDefs : List (Nat × PerkDef))
    (damageTypeDefs : List (Nat × DamageTypeDef)) : List EnrichedItem :=
  items.map fun i =>
    enrichItemWithPerks (enrichItemWithStats i statDefs) perkDefs damageTypeDefs

/-! ## Classifier and pipeline -/

/-- JS `item.plug?.plugCategoryIdentifier?.toLowerCase() || ''`. -/
def plugCatLower (i : Item) : String :=
  jsOrStr ((i.plug.bind (fun p => p.plugCategoryIdentifier)).map lowerStr) ""

/-- JS `item.itemTypeDisplayName?.toLowerCase() || ''`. -/
def itemTypeLower (i : Item) : String :=
  jsOrStr (i.itemTypeDisplayName.map lowerStr) ""

/-- Aspect test of `getSubclassItems`: plug-category contains `'aspect'`, or
item-type display name is exactly `'aspect'`; the display name is never read. -/
def aspectPred (i : Item) : Bool :=
  strContains (plugCatLower i) "aspect" || itemTypeLower i == "aspect"

/-- Fragment test of `getSubclassItems`: plug-category contains `'fragment'`,
or item-type display name is exactly `'fragment'`. -/
def fragmentPred (i : Item) : Bool :=
  strContains (plugCatLower i) "fragment" || itemTypeLower i == "fragment"

/-- Ability test of `getSubclassItems`. -/
def abilityPred (i : Item) : Bool :=
  strContains (plugCatLower i) "grenades" ||
    strContains (plugCatLower i) "melee" ||
    strContains (plugCatLower i) "class_abilities" ||
    strContains (plugCatLower i) "super" ||
    strContains (plugCatLower i) "v400.plugs.abilities"

/-- The four buckets returned by `getSubclassItems`. -/
structure SubclassBuckets where
  subclasses : List Item
  aspects : List Item
  fragments : List Item
  abilities : List Item
  deriving Repr, DecidableEq

/-- `getSubclassItems` over the item table (`Object.values` order): subclass
bucket by category hash 1403; aspect/fragment/ability buckets over all items
by the predicates above; all buckets usability-filtered (plug buckets with
`allowNonEquippable = true`). -/
def getSubclassItems (items : List Item) : SubclassBuckets :=
  { subclasses := filterUsableItems (filterByCategory items 1403) false,
    aspects := filterUsableItems (items.filter aspectPred) true,
    fragments := filterUsableItems (items.filter fragmentPred) true,
    abilities := filterUsableItems (items.filter abilityPred) true }

/-- `getWeapons`: weapon category (hash 1), usable, equippable enforced. -/
def getWeapons (items : List Item) : List Item :=
  filterUsableItems (filterByCategory items 1) false

/-- `getArmor`: armor category (hash 20), usable, equippable enforced. -/
def getArmor (items : List Item) : List Item :=
  filterUsableItems (filterByCategory items 20) false

/-- `getArmorMods`: armor-mods category (hash 59), usable, non-equippable
plugs allowed. -/
def getArmorMods (items : List Item) : List Item :=
  filterUsableItems (filterByCategory items 59) true

/-- Artifact-mod test of `getArtifactMods`: a plug block and a display name
are required, then plug-category/item-type artifact tokens are matched. -/
def artifactModPred (i : Item) : Bool :=
  match i.plug with
  | none => false
  | some _ =>
    if !hasDisplayName i then false
    else
      strContains (plugCatLower i) "seasonal_artifact" ||
        strContains (plugCatLower i) "artifact_perk" ||
        strStarts (plugCatLower i) "artifact" ||
        strContains (itemTypeLower i) "artifact"

/-- `getArtifactMods`: artifact-mod matches, usable, non-equippable plugs
allowed; no season filter is applied. -/
def getArtifactMods (items : List Item) : List Item :=
  filterUsableItems (items.filter artifactModPred) true

/-- The champion phrase list of `getChampionMods`. -/
def championPatterns : List String :=
  ["anti-barrier", "overload", "unstoppable", "pierce barrier",
   "disrupt overload", "stagger unstoppable"]

/-- Champion-mod test of `getChampionMods`: a plug block, armor-mods category
membership, and a champion phrase in the lower-cased name or description. -/
def championModPred (i : Item) : Bool :=
  match i.plug with
  | none => false
  | some _ =>
    (match i.itemCategoryHashes with
     | some hs => hs.contains 59
     | none => false) &&
      (let nm := jsOrStr ((i.displayProperties.bind (fun d => d.name)).map lowerStr) ""
       let ds := jsOrStr ((i.displayProperties.bind (fun d => d.description)).map lowerStr) ""
       championPatterns.any fun p => strContains nm p || strContains ds p)

/-- `getChampionMods`: champion-mod matches, usable, non-equippable plugs
allowed; no season filter is applied. -/
def getChampionMods (items : List Item) : List Item :=
  filterUsableItems (items.filter championModPred) true

/-- `getDamageTypes`: damage-type rows with a truthy display name. -/
def getDamageTypes (damageTypeDefs : List (Nat × DamageTypeDef)) :
    List DamageTypeDef :=
  (damageTypeDefs.map (fun e => e.2)).filter fun dt =>
    match dt.displayProperties with
    | some dp => jsStrTruthy dp.name
    | none => false

/-- The record returned by `getAllBuildCraftingData` (the static
`enemyWeaknesses` reference table, appended verbatim from a constant and
never filtered, is omitted). -/
structure BuildCraftingData where
  weapons : List EnrichedItem
  armor : List EnrichedItem
  armorMods : List EnrichedItem
  subclasses : List Item
  aspects : List EnrichedItem
  fragments : List EnrichedItem
  abilities : List EnrichedItem
  damageTypes : List DamageTypeDef
  artifactMods : List EnrichedItem
  championMods : List EnrichedItem
  deriving Repr, DecidableEq

/-- `getAllBuildCraftingData` as a pure function of the season table, the
current instant, the item table and the three auxiliary tables: resolves the
current season (propagating its failure), classifies, usability-filters and
enriches each category.  No category is passed through a season filter. -/
def getAllBuildCraftingData (seasons : List SeasonRecord) (now : Int)
    (items : List Item) (statDefs : List (String × StatDef))
    (perkDefs : List (Nat × PerkDef))
    (damageTypeDefs : List (Nat × DamageTypeDef)) :
    Except String BuildCraftingData :=
  match getCurrentSeason seasons now with
  | .error e => .error e
  | .ok _ =>
    let subclassData := getSubclassItems items
    .ok
      { weapons := enrichItems (getWeapons items) statDefs perkDefs damageTypeDefs,
        armor := enrichItems (getArmor items) statDefs perkDefs damageTypeDefs,
        armorMods := enrichItems (getArmorMods items) statDefs perkDefs damageTypeDefs,
        subclasses := subclassData.subclasses,
        aspects := enrichItems subclassData.aspects statDefs perkDefs damageTypeDefs,
        fragments := enrichItems subclassData.fragments statDefs perkDefs damageTypeDefs,
        abilities := enrichItems subclassData.abilities statDefs perkDefs damageTypeDefs,
        damageTypes := getDamageTypes damageTypeDefs,
        artifactMods := enrichItems (getArtifactMods items) statDefs perkDefs damageTypeDefs,
        championMods := enrichItems (getChampionMods items) statDefs perkDefs damageTypeDefs }

/-- Season list used to exercise the season-resolver theorem: an ended
season of ordinal 1 and an open-ended season of ordinal 2. -/
def c1seasons : List SeasonRecord :=
  [{ hash := 11, seasonNumber := some 1, startDate := some (-10),
     endDate := some (-5), displayProperties := none },
   { hash := 22, seasonNumber := some 2, startDate := some (-5),
     endDate := none, displayProperties := none }]

/-- Replace an item's season identifier, leaving every other field alone. -/
def setSeason (sh : Option Nat) (i : Item) : Item := { i with seasonHash := sh }

/-- Current season for the pipeline counterexample: hash 100, ordinal 5,
started at instant 0, open-ended. -/
def c2season : SeasonRecord :=
  { hash := 100, seasonNumber := some 5, startDate := some 0,
    endDate := none, displayProperties := none }

/-- An artifact mod carrying a foreign season identifier (999). -/
def c2artifact : Item :=
  { emptyItem with
      plug := some { plugCategoryIdentifier := some "seasonal_artifact_perk" },
      displayProperties :=
        some { name := some "Future Artifact Mod", description := none, icon := none },
      seasonHash := some 999 }

/-- A champion mod carrying a foreign season identifier (999). -/
def c2champion : Item :=
  { emptyItem with
      plug := some { plugCategoryIdentifier := some "enhancements.season" },
      itemCategoryHashes := some [59],
      displayProperties :=
        some { name := some "Unstoppable Hand Cannon", description := none, icon := none },
      seasonHash := some 999 }

/-- A gateway serving one table "T" at path "/p" for the cache witness. -/
def c7gateway : Gateway :=
  { manifestData := { jsonWorldComponentContentPaths := some [("en", [("T", "/p")])] },
    fetchTable := fun _ => [] }

/-- Items of the usability example: a redacted item, a non-equippable item,
and a plainly usable named item. -/
def c5item1 : Item := { emptyItem with redacted := some true }

def c5item2 : Item := { emptyItem with equippable := some false }

def c5item3 : Item :=
  { emptyItem with
      displayProperties := some { name := some "X", description := none, icon := none },
      equippable := some true, redacted := some false }

/-- C9 witness item: redacted, no season identifier. -/
def c9item : Item := { emptyItem with redacted := some true }

/-- C6 counterexample item: redacted, with no season identifier. -/
def c6item : Item := { emptyItem with redacted := some true }

/-- C3 witness item: named "Fragmentation Grenade", usable, with no
aspect/fragment plug-category or item-type signal. -/
def c3item : Item :=
  { emptyItem with
      displayProperties :=
        some { name := some "Fragmentation Grenade", description := none, icon := none },
      itemTypeDisplayName := some "Grenade",
      equippable := some true, redacted := some false }

/-- C8 witness item: one raw stat entry under key "42". -/
def c8item : Item :=
  { emptyItem with
      stats := some
        { stats := some
            [("42", { value := some 7, minimum := none, maximum := some 0,
                      displayMaximum := some 50 })] } }

/-- C10 witness item: a present but empty stat map. -/
def c10item : Item := { emptyItem with stats := some { stats := some [] } }

/-! ## Theorems -/

theorem maxFrom_mem (a : SeasonRecord) (l : List SeasonRecord) :
    maxFrom a l ∈ a :: l := by
  induction l generalizing a with
  | nil => simp [maxFrom]
  | cons b rest ih =>
    unfold maxFrom
    split
    · exact List.mem_cons_of_mem _ (ih b)
    · rcases List.mem_cons.mp (ih a) with h1 | h2
      · simp [h1]
      · exact List.mem_cons_of_mem _ (List.mem_cons_of_mem _ h2)

theorem maxFrom_le (a : SeasonRecord) (l : List SeasonRecord) :
    seasonNum a ≤ seasonNum (maxFrom a l) ∧
      ∀ t ∈ l, seasonNum t ≤ seasonNum (maxFrom a l) := by
  induction l generalizing a with
  | nil => simp [maxFrom]
  | cons b rest ih =>
    unfold maxFrom
    split
    · next hlt =>
      refine ⟨le_trans (le_of_lt hlt) (ih b).1, ?_⟩
      intro t ht
      rcases List.mem_cons.mp ht with h1 | h2
      · rw [h1]; exact (ih b).1
      · exact (ih b).2 t h2
    · next hnlt =>
      refine ⟨(ih a).1, ?_⟩
      intro t ht
      rcases List.mem_cons.mp ht with h1 | h2
      · rw [h1]; exact le_trans (le_of_not_lt hnlt) (ih a).1
      · exact (ih a).2 t h2

theorem firstMaxSeason_eq_none {l : List SeasonRecord} :
    firstMaxSeason l = none ↔ l = [] := by
  cases l <;> simp [firstMaxSeason]

theorem firstMaxSeason_mem {l : List SeasonRecord} {s : SeasonRecord}
    (h : firstMaxSeason l = some s) : s ∈ l := by
  cases l with
  | nil => simp [firstMaxSeason] at h
  | cons a rest =>
    simp only [firstMaxSeason] at h
    injection h with h
    subst h
    exact maxFrom_mem a rest

theorem firstMaxSeason_max {l : List SeasonRecord} {s : SeasonRecord}
    (h : firstMaxSeason l = some s) :
    ∀ t ∈ l, seasonNum t ≤ seasonNum s := by
  cases l with
  | nil => simp
  | cons a rest =>
    simp only [firstMaxSeason] at h
    injection h with h
    subst h
    intro t ht
    rcases List.mem_cons.mp ht with h1 | h2
    · subst h1; exact (maxFrom_le t rest).1
    · exact (maxFrom_le a rest).2 t h2

/-- C1: `getCurrentSeasonHash` follows the two-tier algorithm: among active
seasons (positive ordinal, started, not ended) it returns one with the
highest ordinal; if that set is empty it returns a highest-ordinal started
season; it fails exactly when the started set is also empty. -/
theorem getCurrentSeason_two_tier (seasons : List SeasonRecord) (now : Int) :
    (seasons.filter (activePred now) ≠ [] →
      ∃ s, getCurrentSeason seasons now = .ok s ∧
        s ∈ seasons.filter (activePred now) ∧
        ∀ t ∈ seasons.filter (activePred now), seasonNum t ≤ seasonNum s) ∧
    (seasons.filter (activePred now) = [] →
      seasons.filter (startedPred now) ≠ [] →
      ∃ s, getCurrentSeason seasons now = .ok s ∧
        s ∈ seasons.filter (startedPred now) ∧
        ∀ t ∈ seasons.filter (startedPred now), seasonNum t ≤ seasonNum s) ∧
    ((∃ e, getCurrentSeason seasons now = .error e) ↔
      seasons.filter (startedPred now) = []) := by
  have hsub : seasons.filter (startedPred now) = [] →
      seasons.filter (activePred now) = [] := by
    intro hB
    rw [List.filter_eq_nil_iff] at hB ⊢
    intro a ha hact
    have : startedPred now a = true := by
      revert hact
      unfold activePred
      cases startedPred now a <;> simp
    exact hB a ha this
  refine ⟨?_, ?_, ?_⟩
  · intro hA
    rcases hcand : firstMaxSeason (seasons.filter (activePred now)) with _ | s
    · exact absurd (firstMaxSeason_eq_none.mp hcand) hA
    · refine ⟨s, ?_, firstMaxSeason_mem hcand, firstMaxSeason_max hcand⟩
      unfold getCurrentSeason
      have : (seasons.filter (activePred now)).isEmpty = false := by
        simpa [List.isEmpty_iff] using hA
      simp [this, hcand]
  · intro hA hB
    rcases hcand : firstMaxSeason (seasons.filter (startedPred now)) with _ | s
    · exact absurd (firstMaxSeason_eq_none.mp hcand) hB
    · refine ⟨s, ?_, firstMaxSeason_mem hcand, firstMaxSeason_max hcand⟩
      unfold getCurrentSeason
      have : (seasons.filter (activePred now)).isEmpty = true := by
        simp [List.isEmpty_iff, hA]
      simp [this, hcand]
  · constructor
    · rintro ⟨e, he⟩
      by_cases hB : seasons.filter (startedPred now) = []
      · exact hB
      · exfalso
        by_cases hA : seasons.filter (activePred now) = []
        · rcases hcand : firstMaxSeason (seasons.filter (startedPred now)) with _ | s
          · exact hB (firstMaxSeason_eq_none.mp hcand)
          · have h1 : (seasons.filter (activePred now)).isEmpty = true := by
              simp [List.isEmpty_iff, hA]
            simp [getCurrentSeason, h1, hcand] at he
        · rcases hcand : firstMaxSeason (seasons.filter (activePred now)) with _ | s
          · exact hA (firstMaxSeason_eq_none.mp hcand)
          · have h1 : (seasons.filter (activePred now)).isEmpty = false := by
              simpa [List.isEmpty_iff] using hA
            simp [getCurrentSeason, h1, hcand] at he
    · intro hB
      have hA := hsub hB
      unfold getCurrentSeason
      have h1 : (seasons.filter (activePred now)).isEmpty = true := by
        simp [List.isEmpty_iff, hA]
      have h2 : firstMaxSeason (seasons.filter (startedPred now)) = none :=
        firstMaxSeason_eq_none.mpr hB
      exact ⟨"Could not determine current season from manifest", by simp [h1, h2]⟩

/-- C1 witness: on a table with an ended ordinal-1 season and an open-ended
ordinal-2 season at instant 0, the active tier is non-empty and the resolver
picks the ordinal-2 season. -/
theorem getCurrentSeason_two_tier_witness :
    ∃ s, getCurrentSeason c1seasons 0 = .ok s ∧
      s ∈ c1seasons.filter (activePred 0) ∧
      ∀ t ∈ c1seasons.filter (activePred 0), seasonNum t ≤ seasonNum s :=
  (getCurrentSeason_two_tier c1seasons 0).1 (by decide)

/-- C4: enrichment is a non-destructive overlay — both enrichment steps
return every original field of the input unchanged (the `item` projection is
the identity and stat enrichment passes through), only adding the derived
`enrichedStats` / `enrichedPerks` / `enrichedSockets` / `enrichedDamageType`
keys; the definition tables, being arguments of pure functions, are never
mutated. -/
theorem enrich_nondestructive (i : Item) (statDefs : List (String × StatDef))
    (e : StatsEnriched) (perkDefs : List (Nat × PerkDef))
    (damageTypeDefs : List (Nat × DamageTypeDef)) :
    (enrichItemWithStats i statDefs).item = i ∧
    (enrichItemWithPerks e perkDefs damageTypeDefs).item = e.item ∧
    (enrichItemWithPerks e perkDefs damageTypeDefs).enrichedStats
      = e.enrichedStats := by
  refine ⟨?_, rfl, rfl⟩
  cases hs : i.stats with
  | none => simp [enrichItemWithStats, hs]
  | some sb => cases hsb : sb.stats <;> simp [enrichItemWithStats, hs, hsb]

/-- C5: `filterUsableItems` keeps exactly the items that are not flagged
redacted, have a non-empty display name, and are not marked
`equippable === false` (the equippable check being skipped when
`allowNonEquippable` is set); on the spec's three-item example with
`allowNonEquippable = false` only the third item survives. -/
theorem filterUsableItems_spec (items : List Item) (allowNonEquippable : Bool) :
    filterUsableItems items allowNonEquippable
        = items.filter (specUsable allowNonEquippable) ∧
    filterUsableItems [c5item1, c5item2, c5item3] false = [c5item3] := by
  constructor
  · refine List.filter_congr ?_
    intro i _
    simp only [specUsable]
    cases hr : (i.redacted == some true) <;>
      cases he : (i.equippable == some false) <;>
      cases hn : hasDisplayName i <;>
      cases allowNonEquippable <;>
      simp [hr, he, hn]
  · decide

/-- C9: the up-to-current season filter drops every item flagged redacted,
whatever its season fields hold. -/
theorem filterUpToCurrentSeason_excludes_redacted (i : Item)
    (items : List Item) (cur : Int) (m : List (Nat × Int))
    (h : i.redacted = some true) :
    i ∉ filterUpToCurrentSeason items cur m := by
  intro hmem
  have := List.of_mem_filter hmem
  rw [h] at this
  simp at this

/-- C9 witness: the redacted evergreen item is dropped from its own
singleton list. -/
theorem filterUpToCurrentSeason_excludes_redacted_witness :
    c9item ∉ filterUpToCurrentSeason [c9item] 5 [] :=
  filterUpToCurrentSeason_excludes_redacted c9item [c9item] 5 [] rfl

/-- C6 counterexample: the claim's up-to-current condition says an item with
no season identifier is kept, but `filterUpToCurrentSeason` drops this
redacted identifier-less item. -/
theorem seasonWindow_upToCurrent_cex :
    c6item.seasonHash = none ∧ filterUpToCurrentSeason [c6item] 5 [] = [] := by
  decide

/-- C6 (amended): exact mode keeps precisely the items with a present
(truthy) season identifier strictly equal to the current one; up-to-current
mode keeps precisely the non-redacted items that have no season identifier,
or an identifier missing from the ordinal map, or a mapped ordinal at most
the current one. -/
theorem seasonWindow_modes_spec (items : List Item) (seasonHash : Nat)
    (cur : Int) (m : List (Nat × Int)) :
    filterByCurrentSeason items seasonHash
        = items.filter (specExactSeason seasonHash) ∧
    filterUpToCurrentSeason items cur m
        = items.filter (specUpToSeason cur m) := by
  constructor
  · exact List.filter_congr fun i _ => rfl
  · refine List.filter_congr ?_
    intro i _
    simp only [specUpToSeason]
    cases hr : (i.redacted == some true)
    · cases hs : i.seasonHash with
      | none => simp [hr, hs, jsNatTruthy]
      | some h =>
        by_cases h0 : h = 0
        · subst h0; simp [hr, hs, jsNatTruthy]
        · cases hm : m.lookup h <;>
            simp [hr, hs, jsNatTruthy, hm, h0, Nat.pos_of_ne_zero]
    · simp [hr]

/-- C3: aspect/fragment classification never consults the display name — an
item whose lower-cased plug-category identifier does not contain the
`"aspect"`/`"fragment"` substring and whose lower-cased item-type display
name is not exactly `"aspect"`/`"fragment"` never lands in the aspect/
fragment bucket, whatever its display name says. -/
theorem aspects_fragments_ignore_display_name (items : List Item) (i : Item) :
    (strContains (plugCatLower i) "aspect" = false →
      itemTypeLower i ≠ "aspect" →
      i ∉ (getSubclassItems items).aspects) ∧
    (strContains (plugCatLower i) "fragment" = false →
      itemTypeLower i ≠ "fragment" →
      i ∉ (getSubclassItems items).fragments) := by
  constructor
  · intro hpc hty hmem
    have h1 : i ∈ items.filter aspectPred :=
      List.mem_of_mem_filter hmem
    have h2 : aspectPred i = true := List.of_mem_filter h1
    rw [aspectPred, hpc] at h2
    simp at h2
    exact hty h2
  · intro hpc hty hmem
    have h1 : i ∈ items.filter fragmentPred :=
      List.mem_of_mem_filter hmem
    have h2 : fragmentPred i = true := List.of_mem_filter h1
    rw [fragmentPred, hpc] at h2
    simp at h2
    exact hty h2

/-- C3 witness: "Fragmentation Grenade" is not classified as a fragment even
when it is the only item in the table. -/
theorem aspects_fragments_ignore_display_name_witness :
    c3item ∉ (getSubclassItems [c3item]).fragments :=
  (aspects_fragments_ignore_display_name [c3item] c3item).2 (by decide) (by decide)

/-- C8: stat enrichment resolves every entry of the item's stat map — the
resolved record keeps the identifier and the raw value/min/max/displayMax
(with the JS `|| 0` / `|| 100` fallbacks), and an identifier absent from the
stat table yields the synthetic `Unknown_<id>` name with an empty
description instead of an error. -/
theorem enrichStats_resolves_each_entry (item : Item)
    (statDefs : List (String × StatDef)) (sb : StatsBlock)
    (entries : List (String × StatData)) (h : String) (d : StatData)
    (hstats : item.stats = some sb) (hentries : sb.stats = some entries)
    (hmem : (h, d) ∈ entries) :
    ∃ l, (enrichItemWithStats item statDefs).enrichedStats = some l ∧
      (h, enrichStat statDefs h d) ∈ l ∧
      (enrichStat statDefs h d).hash = h ∧
      (enrichStat statDefs h d).value = jsOrNum d.value 0 ∧
      (enrichStat statDefs h d).minimum = jsOrNum d.minimum 0 ∧
      (enrichStat statDefs h d).maximum = jsOrNum d.maximum 100 ∧
      (enrichStat statDefs h d).displayMaximum = d.displayMaximum ∧
      (statDefs.lookup h = none →
        (enrichStat statDefs h d).name = "Unknown_" ++ h ∧
        (enrichStat statDefs h d).description = "") := by
  refine ⟨entries.map (fun e => (e.1, enrichStat statDefs e.1 e.2)), ?_, ?_,
    rfl, rfl, rfl, rfl, rfl, ?_⟩
  · simp [enrichItemWithStats, hstats, hentries]
  · exact List.mem_map_of_mem (fun e => (e.1, enrichStat statDefs e.1 e.2)) hmem
  · intro hnone
    simp [enrichStat, hnone, jsOrStr]

/-- C8 witness: against an empty stat table the single entry resolves to the
synthetic `Unknown_42` record. -/
theorem enrichStats_resolves_each_entry_witness :
    ∃ l, (enrichItemWithStats c8item []).enrichedStats = some l ∧
      (("42", enrichStat [] "42"
          { value := some 7, minimum := none, maximum := some 0,
            displayMaximum := some 50 }) ∈ l) ∧
      (enrichStat [] "42"
          { value := some 7, minimum := none, maximum := some 0,
            displayMaximum := some 50 }).hash = "42" ∧
      (enrichStat [] "42"
          { value := some 7, minimum := none, maximum := some 0,
            displayMaximum := some 50 }).value
        = jsOrNum (some 7) 0 ∧
      (enrichStat [] "42"
          { value := some 7, minimum := none, maximum := some 0,
            displayMaximum := some 50 }).minimum
        = jsOrNum none 0 ∧
      (enrichStat [] "42"
          { value := some 7, minimum := none, maximum := some 0,
            displayMaximum := some 50 }).maximum
        = jsOrNum (some 0) 100 ∧
      (enrichStat [] "42"
          { value := some 7, minimum := none, maximum := some 0,
            displayMaximum := some 50 }).displayMaximum = some 50 ∧
      (List.lookup "42" ([] : List (String × StatDef)) = none →
        (enrichStat [] "42"
            { value := some 7, minimum := none, maximum := some 0,
              displayMaximum := some 50 }).name = "Unknown_" ++ "42" ∧
        (enrichStat [] "42"
            { value := some 7, minimum := none, maximum := some 0,
              displayMaximum := some 50 }).description = "") :=
  enrichStats_resolves_each_entry c8item []
    { stats := some
        [("42", { value := some 7, minimum := none, maximum := some 0,
                  displayMaximum := some 50 })] }
    [("42", { value := some 7, minimum := none, maximum := some 0,
              displayMaximum := some 50 })]
    "42"
    { value := some 7, minimum := none, maximum := some 0,
      displayMaximum := some 50 }
    rfl rfl (by decide)

/-- C10: an item with no stats block (or no inner stat map) passes through
stat enrichment entirely unchanged, with no `enrichedStats` key added; an
item with a present but empty stat map gets an empty `enrichedStats` map. -/
theorem enrichStats_absent_identity (i : Item)
    (statDefs : List (String × StatDef)) :
    (i.stats = none →
      enrichItemWithStats i statDefs = { item := i, enrichedStats := none }) ∧
    (∀ sb, i.stats = some sb → sb.stats = none →
      enrichItemWithStats i statDefs = { item := i, enrichedStats := none }) ∧
    (∀ sb, i.stats = some sb → sb.stats = some [] →
      enrichItemWithStats i statDefs
        = { item := i, enrichedStats := some [] }) := by
  refine ⟨?_, ?_, ?_⟩
  · intro h; simp [enrichItemWithStats, h]
  · intro sb h hsb; simp [enrichItemWithStats, h, hsb]
  · intro sb h hsb; simp [enrichItemWithStats, h, hsb]

/-- C10 witness: the stats-less item passes through untouched; the
empty-map item receives an empty `enrichedStats`. -/
theorem enrichStats_absent_identity_witness :
    enrichItemWithStats emptyItem [] = { item := emptyItem, enrichedStats := none } ∧
    enrichItemWithStats c10item []
      = { item := c10item, enrichedStats := some [] } :=
  ⟨(enrichStats_absent_identity emptyItem []).1 rfl,
   (enrichStats_absent_identity c10item []).2.2 { stats := some [] } rfl rfl⟩

theorem filter_map_comm (f : Item → Item) (p : Item → Bool)
    (hp : ∀ a, p (f a) = p a) :
    ∀ l : List Item, (l.map f).filter p = (l.filter p).map f := by
  intro l
  induction l with
  | nil => rfl
  | cons a t ih =>
    simp only [List.map, List.filter, hp a]
    cases p a <;> simp [ih]

theorem filterUsableItems_map_setSeason (items : List Item) (sh : Option Nat)
    (allow : Bool) :
    filterUsableItems (items.map (setSeason sh)) allow
      = (filterUsableItems items allow).map (setSeason sh) := by
  unfold filterUsableItems
  refine filter_map_comm (setSeason sh) _ ?_ items
  intro a
  rfl

theorem filterByCategory_map_setSeason (items : List Item) (sh : Option Nat)
    (c : Nat) :
    filterByCategory (items.map (setSeason sh)) c
      = (filterByCategory items c).map (setSeason sh) := by
  unfold filterByCategory
  refine filter_map_comm (setSeason sh) _ ?_ items
  intro a
  rfl

/-- C2 counterexample: with current season hash 100 (ordinal 5), an artifact
mod and a champion mod stamped with season 999 still come out of
`getAllBuildCraftingData`'s artifact-mod and champion-mod sets — they are not
bounded to the current season window. -/
theorem buildCrafting_artifact_not_season_bounded_cex :
    getCurrentSeasonHash [c2season] 10 = .ok 100 ∧
    ((getAllBuildCraftingData [c2season] 10 [c2artifact, c2champion] [] [] []).toOption.map
        fun d => (d.artifactMods.map fun e => e.item.seasonHash,
                  d.championMods.map fun e => e.item.seasonHash))
      = some ([some 999], [some 999]) ∧
    (999 : Nat) ≠ 100 := by
  refine ⟨rfl, rfl, by decide⟩

/-- C2 (amended): no category of the canonical pipeline is season-bounded —
relabelling every item's season identifier commutes with every category
selection, artifact-mods and champion-mods included, and the pipeline's
artifact/champion outputs are exactly the unfiltered enriched selections. -/
theorem buildCrafting_no_season_filter (items : List Item) (sh : Option Nat) :
    (getWeapons (items.map (setSeason sh))
        = (getWeapons items).map (setSeason sh)) ∧
    (getArmor (items.map (setSeason sh))
        = (getArmor items).map (setSeason sh)) ∧
    (getArmorMods (items.map (setSeason sh))
        = (getArmorMods items).map (setSeason sh)) ∧
    ((getSubclassItems (items.map (setSeason sh))).subclasses
        = ((getSubclassItems items).subclasses).map (setSeason sh)) ∧
    ((getSubclassItems (items.map (setSeason sh))).aspects
        = ((getSubclassItems items).aspects).map (setSeason sh)) ∧
    ((getSubclassItems (items.map (setSeason sh))).fragments
        = ((getSubclassItems items).fragments).map (setSeason sh)) ∧
    ((getSubclassItems (items.map (setSeason sh))).abilities
        = ((getSubclassItems items).abilities).map (setSeason sh)) ∧
    (getArtifactMods (items.map (setSeason sh))
        = (getArtifactMods items).map (setSeason sh)) ∧
    (getChampionMods (items.map (setSeason sh))
        = (getChampionMods items).map (setSeason sh)) ∧
    (∀ seasons now statDefs perkDefs damageTypeDefs d,
      getAllBuildCraftingData seasons now items statDefs perkDefs damageTypeDefs
          = .ok d →
        d.artifactMods = enrichItems (getArtifactMods items) statDefs perkDefs damageTypeDefs ∧
        d.championMods = enrichItems (getChampionMods items) statDefs perkDefs damageTypeDefs) := by
  refine ⟨?_, ?_, ?_, ?_, ?_, ?_, ?_, ?_, ?_, ?_⟩
  · unfold getWeapons
    rw [filterByCategory_map_setSeason, filterUsableItems_map_setSeason]
  · unfold getArmor
    rw [filterByCategory_map_setSeason, filterUsableItems_map_setSeason]
  · unfold getArmorMods
    rw [filterByCategory_map_setSeason, filterUsableItems_map_setSeason]
  · unfold getSubclassItems
    simp only
    rw [filterByCategory_map_setSeason, filterUsableItems_map_setSeason]
  · unfold getSubclassItems
    simp only
    rw [filter_map_comm (setSeason sh) aspectPred (fun _ => rfl),
      filterUsableItems_map_setSeason]
  · unfold getSubclassItems
    simp only
    rw [filter_map_comm (setSeason sh) fragmentPred (fun _ => rfl),
      filterUsableItems_map_setSeason]
  · unfold getSubclassItems
    simp only
    rw [filter_map_comm (setSeason sh) abilityPred (fun _ => rfl),
      filterUsableItems_map_setSeason]
  · unfold getArtifactMods
    rw [filter_map_comm (setSeason sh) artifactModPred (fun _ => rfl),
      filterUsableItems_map_setSeason]
  · unfold getChampionMods
    rw [filter_map_comm (setSeason sh) championModPred (fun _ => rfl),
      filterUsableItems_map_setSeason]
  · intro seasons now statDefs perkDefs damageTypeDefs d h
    cases hcs : getCurrentSeason seasons now with
    | error e => simp [getAllBuildCraftingData, hcs] at h
    | ok s =>
      simp only [getAllBuildCraftingData, hcs] at h
      cases h
      exact ⟨rfl, rfl⟩

/-- C2 amended-claim witness: instantiating the pipeline conjunct at the
counterexample inputs. -/
theorem buildCrafting_no_season_filter_witness :
    ∃ d, getAllBuildCraftingData [c2season] 10 [c2artifact, c2champion] [] [] []
        = .ok d ∧
      d.artifactMods = enrichItems (getArtifactMods [c2artifact, c2champion]) [] [] [] ∧
      d.championMods = enrichItems (getChampionMods [c2artifact, c2champion]) [] [] [] := by
  refine ⟨_, rfl, ?_⟩
  exact (buildCrafting_no_season_filter [c2artifact, c2champion] none).2.2.2.2.2.2.2.2.2
    [c2season] 10 [] [] [] _ rfl

/-- C7: the definition cache fetches a table at most once — starting from any
state whose manifest cache is cold or coherent and which lacks the table, the
first `loadDefinitions` performs exactly one gateway fetch, the second
performs none and returns the same table, and `clearCache` resets every
cached table and the derived current-season state so that the next call
fetches again. -/
theorem definitionsCache_single_fetch (env : Gateway) (tableName path : String)
    (s : CacheState)
    (hman : s.manifestCache = none ∨ s.manifestCache = some env.manifestData)
    (hmiss : s.definitionsCache.lookup tableName = none)
    (hpath : getDefinitionPath env.manifestData tableName = .ok path) :
    (loadDefinitions env tableName s).2.2 = 1 ∧
    (loadDefinitions env tableName s).1 = .ok (env.fetchTable path) ∧
    (loadDefinitions env tableName (loadDefinitions env tableName s).2.1).2.2 = 0 ∧
    (loadDefinitions env tableName (loadDefinitions env tableName s).2.1).1
      = .ok (env.fetchTable path) ∧
    clearCache (loadDefinitions env tableName (loadDefinitions env tableName s).2.1).2.1
      = initialCache ∧
    initialCache.definitionsCache = [] ∧
    initialCache.currentSeasonHash = none ∧
    initialCache.currentSeasonName = none ∧
    initialCache.currentSeasonNumber = none ∧
    (loadDefinitions env tableName initialCache).2.2 = 1 := by
  have hm : (loadManifest env s).1 = env.manifestData ∧
      (loadManifest env s).2.manifestCache = some env.manifestData ∧
      (loadManifest env s).2.definitionsCache = s.definitionsCache := by
    rcases hman with h | h <;> simp [loadManifest, h]
  have h1 : loadDefinitions env tableName s
      = (.ok (env.fetchTable path),
         { (loadManifest env s).2 with
             definitionsCache :=
               (tableName, env.fetchTable path) :: (loadManifest env s).2.definitionsCache },
         1) := by
    unfold loadDefinitions
    rw [hmiss]
    simp only
    rw [hm.1, hpath]
  refine ⟨?_, ?_, ?_, ?_, rfl, rfl, rfl, rfl, rfl, ?_⟩
  · rw [h1]
  · rw [h1]
  · rw [h1]
    unfold loadDefinitions
    simp [List.lookup]
  · rw [h1]
    unfold loadDefinitions
    simp [List.lookup]
  · unfold loadDefinitions
    simp only [initialCache, List.lookup]
    unfold loadManifest
    simp only [initialCache]
    rw [hpath]

/-- C7 witness: on the cold cache against the one-table gateway, the first
call fetches once, the second serves from cache, and a cleared cache
fetches again. -/
theorem definitionsCache_single_fetch_witness :
    (loadDefinitions c7gateway "T" initialCache).2.2 = 1 ∧
    (loadDefinitions c7gateway "T" initialCache).1
      = .ok (c7gateway.fetchTable "/p") ∧
    (loadDefinitions c7gateway "T"
        (loadDefinitions c7gateway "T" initialCache).2.1).2.2 = 0 ∧
    (loadDefinitions c7gateway "T"
        (loadDefinitions c7gateway "T" initialCache).2.1).1
      = .ok (c7gateway.fetchTable "/p") ∧
    clearCache (loadDefinitions c7gateway "T"
        (loadDefinitions c7gateway "T" initialCache).2.1).2.1 = initialCache ∧
    initialCache.definitionsCache = [] ∧
    initialCache.currentSeasonHash = none ∧
    initialCache.currentSeasonName = none ∧
    initialCache.currentSeasonNumber = none ∧
    (loadDefinitions c7gateway "T" initialCache).2.2 = 1 :=
  definitionsCache_single_fetch c7gateway "T" "/p" initialCache
    (Or.inl rfl) rfl rfl

end Destiny
